import Mathlib

/-!
Verification of the dashboard index view (src/dashboard/views.py).

The view body is, line by line:
  response = requests.get(settings.API_URL)
  posts = response.json()
  total_responses = len(posts)
  data = dict binding title to the literal title string and
         total_responses to the computed count
  return render(request, "dashboard/index.html", data)

The two external collaborators — the HTTP client (requests.get) and the
JSON decoder backing response.json() — are modelled as an environment of
functions that either return a value or raise. Python len applied to a
decoded JSON value is modelled concretely by pyLen. The stray apostrophe
in the title literal is written with the escape \x27 throughout this file.
-/

namespace Dashboard

/-- Django settings object: the single configuration value API_URL. -/
structure Settings where
  API_URL : String

/-- An inbound HTTP request. The view reads none of these fields; it only
forwards the request object itself to render. -/
structure Request where
  queryParams : List (String × String)
  reqBody : String
  headers : List (String × String)

/-- A decoded JSON value, as produced by response.json(). -/
inductive Json where
  | null
  | bool (b : Bool)
  | num (n : Int)
  | str (s : String)
  | arr (elems : List Json)
  | obj (members : List (String × Json))

/-- Python exceptions that can escape the view body uncaught. -/
inductive PyError where
  | connectionError
  | jsonDecodeError
  | typeError
deriving DecidableEq

/-- Python len applied to a decoded JSON value: the element count for a
list, the key count for a dict, the character count for a string, and a
TypeError for numbers, booleans and None, which have no length. -/
def pyLen : Json → Except PyError Nat
  | .arr elems => .ok elems.length
  | .obj members => .ok members.length
  | .str s => .ok s.length
  | .null => .error .typeError
  | .bool _ => .error .typeError
  | .num _ => .error .typeError

/-- A value bound into the template rendering context. -/
inductive CtxValue where
  | str (s : String)
  | int (n : Nat)

/-- One call to django.shortcuts.render: the forwarded request object,
the template identifier, and the context mapping. -/
structure RenderCall where
  request : Request
  template : String
  context : List (String × CtxValue)

/-- One outbound HTTP call as issued by the requests library. -/
structure HttpCall where
  method : String
  url : String
  reqBody : Option String
  headers : List (String × String)
  queryParams : List (String × String)

/-- Observable side effects of one invocation of the view. The view has
no store, so a write effect can never be emitted; the constructor exists
so that absence of writes is expressible. -/
inductive Effect where
  | httpCall (c : HttpCall)
  | storeWrite (store key value : String)

/-- The external world seen by one invocation: requests.get (returning a
response body or raising a transport error) and the JSON decoder backing
response.json() (returning a decoded value or raising JSONDecodeError). -/
structure Env where
  fetch : String → Except PyError String
  decode : String → Except PyError Json

/-- requests.get(url): a single GET with no request body, no custom
headers and no query parameters. -/
def requestsGet (url : String) : Effect :=
  .httpCall ⟨"GET", url, none, [], []⟩

/-- The value computed by dashboard.views.index: each line of the source
in order, each fallible step propagating its exception unchanged. -/
def indexResult (env : Env) (settings : Settings) (request : Request) :
    Except PyError RenderCall :=
  match env.fetch settings.API_URL with
  | .error e => .error e
  | .ok respBody =>
    match env.decode respBody with
    | .error e => .error e
    | .ok posts =>
      match pyLen posts with
      | .error e => .error e
      | .ok total_responses =>
        let data := [("title", CtxValue.str "Landing Page\x27 Dashboard"),
                     ("total_responses", CtxValue.int total_responses)]
        .ok ⟨request, "dashboard/index.html", data⟩

/-- The effect trace of one invocation: requests.get(settings.API_URL) is
issued exactly once, as the first statement, before any step can fail. -/
def indexEffects (env : Env) (settings : Settings) (request : Request) :
    List Effect :=
  [requestsGet settings.API_URL]

/-- The view dashboard.views.index: its result (a render call, or the
uncaught exception) paired with its effect trace. -/
def index (env : Env) (settings : Settings) (request : Request) :
    Except PyError RenderCall × List Effect :=
  (indexResult env settings request, indexEffects env settings request)

/-! Concrete fixtures used by witnesses and counterexamples. -/

/-- A concrete settings value. -/
def s₀ : Settings := ⟨"https://jsonplaceholder.typicode.com/posts"⟩

/-- A concrete inbound request with no data. -/
def r₀ : Request := ⟨[], "", []⟩

/-- An environment whose upstream returns a five element JSON array. -/
def envArr5 : Env :=
  ⟨fun _ => .ok "[1, 2, 3, 4, 5]",
   fun _ => .ok (.arr [.num 1, .num 2, .num 3, .num 4, .num 5])⟩

/-- C1: whenever the upstream body decodes to a JSON array of length N,
the context handed to render binds total_responses to exactly N, which as
a Nat is non-negative; this holds for every N, including 0, 1 and any
larger length. -/
theorem C1_total_responses_counts_array
    (env : Env) (s : Settings) (r : Request) (respBody : String)
    (elems : List Json)
    (hf : env.fetch s.API_URL = .ok respBody)
    (hd : env.decode respBody = .ok (.arr elems)) :
    (index env s r).1 =
      .ok ⟨r, "dashboard/index.html",
        [("title", .str "Landing Page\x27 Dashboard"),
         ("total_responses", .int elems.length)]⟩ := by
  simp [index, indexResult, hf, hd, pyLen]

/-- C1 witness: a five element upstream array yields a render context
with total_responses bound to 5. -/
theorem C1_witness :
    (index envArr5 s₀ r₀).1 =
      .ok ⟨r₀, "dashboard/index.html",
        [("title", .str "Landing Page\x27 Dashboard"),
         ("total_responses", .int 5)]⟩ :=
  C1_total_responses_counts_array envArr5 s₀ r₀ "[1, 2, 3, 4, 5]"
    [.num 1, .num 2, .num 3, .num 4, .num 5] rfl rfl

/-- Helper: every successful run of the view renders the fixed template
with a context of exactly the two literal keys, title bound to the
literal title string and total_responses to some count. -/
theorem index_ok_shape
    (env : Env) (s : Settings) (r : Request) (rc : RenderCall)
    (h : (index env s r).1 = .ok rc) :
    ∃ n : Nat, rc =
      ⟨r, "dashboard/index.html",
        [("title", .str "Landing Page\x27 Dashboard"),
         ("total_responses", .int n)]⟩ := by
  have h' : indexResult env s r = .ok rc := h
  unfold indexResult at h'
  cases hfe : env.fetch s.API_URL with
  | error e => simp [hfe] at h'
  | ok respBody =>
    simp only [hfe] at h'
    cases hde : env.decode respBody with
    | error e => simp [hde] at h'
    | ok posts =>
      simp only [hde] at h'
      cases hle : pyLen posts with
      | error e => simp [hle] at h'
      | ok n =>
        simp only [hle] at h'
        simp at h'
        exact ⟨n, h'.symm⟩

/-- The render call produced by the five element array fixture. -/
def rcArr5 : RenderCall :=
  ⟨r₀, "dashboard/index.html",
   [("title", .str "Landing Page\x27 Dashboard"),
    ("total_responses", .int 5)]⟩

/-- C2: on every successful run, whatever the environment (upstream
content) and the inbound request, the context binds title to exactly the
literal title string with the stray apostrophe. -/
theorem C2_title_is_constant_literal
    (env : Env) (s : Settings) (r : Request) (rc : RenderCall)
    (h : (index env s r).1 = .ok rc) :
    rc.context.lookup "title" = some (.str "Landing Page\x27 Dashboard") := by
  obtain ⟨n, rfl⟩ := index_ok_shape env s r rc h
  rfl

/-- C2 witness: the title binding on the concrete five element run. -/
theorem C2_witness :
    rcArr5.context.lookup "title" =
      some (.str "Landing Page\x27 Dashboard") :=
  C2_title_is_constant_literal envArr5 s₀ r₀ rcArr5 rfl

/-- C3: every successful run invokes render with the template identifier
dashboard/index.html and a context list holding exactly the keys title
(a string) and total_responses (an integer) and nothing else; since
CtxValue has only string and integer constructors, no decoded JSON value
can appear in the context. -/
theorem C3_render_template_and_exact_keys
    (env : Env) (s : Settings) (r : Request) (rc : RenderCall)
    (h : (index env s r).1 = .ok rc) :
    rc.template = "dashboard/index.html" ∧
    ∃ n : Nat, rc.context =
      [("title", CtxValue.str "Landing Page\x27 Dashboard"),
       ("total_responses", CtxValue.int n)] := by
  obtain ⟨n, rfl⟩ := index_ok_shape env s r rc h
  exact ⟨rfl, n, rfl⟩

/-- C3 witness: template and exact keys on the concrete run. -/
theorem C3_witness :
    rcArr5.template = "dashboard/index.html" ∧
    ∃ n : Nat, rcArr5.context =
      [("title", CtxValue.str "Landing Page\x27 Dashboard"),
       ("total_responses", CtxValue.int n)] :=
  C3_render_template_and_exact_keys envArr5 s₀ r₀ rcArr5 rfl

/-- C4: when requests.get raises a transport error, the view result is
that uncaught exception: no render call is produced, no recovery, retry
or fallback occurs. -/
theorem C4_transport_error_propagates
    (env : Env) (s : Settings) (r : Request) (e : PyError)
    (hf : env.fetch s.API_URL = .error e) :
    (index env s r).1 = .error e := by
  simp [index, indexResult, hf]

/-- An environment whose upstream refuses the connection. -/
def envDown : Env :=
  ⟨fun _ => .error .connectionError, fun _ => .error .jsonDecodeError⟩

/-- C4 witness: connection refused propagates out of the view. -/
theorem C4_witness :
    (index envDown s₀ r₀).1 = .error .connectionError :=
  C4_transport_error_propagates envDown s₀ r₀ .connectionError rfl

/-- C5: when the upstream body is not valid JSON, response.json() raises
and the exception propagates out of the view uncaught: no render call is
produced. -/
theorem C5_decode_error_propagates
    (env : Env) (s : Settings) (r : Request) (respBody : String)
    (e : PyError)
    (hf : env.fetch s.API_URL = .ok respBody)
    (hd : env.decode respBody = .error e) :
    (index env s r).1 = .error e := by
  simp [index, indexResult, hf, hd]

/-- An environment whose upstream returns plain text, not JSON. -/
def envText : Env :=
  ⟨fun _ => .ok "service temporarily unavailable",
   fun _ => .error .jsonDecodeError⟩

/-- C5 witness: a plain text body makes the decode exception escape. -/
theorem C5_witness :
    (index envText s₀ r₀).1 = .error .jsonDecodeError :=
  C5_decode_error_propagates envText s₀ r₀
    "service temporarily unavailable" .jsonDecodeError rfl rfl

/-- An environment whose upstream returns a one key JSON object. -/
def envObj1 : Env :=
  ⟨fun _ => .ok "\x7b\"a\": 1\x7d",
   fun _ => .ok (.obj [("a", .num 1)])⟩

/-- C6 counterexample: the claim says a decoded JSON object has no
countable length and makes the view fault, but Python len of a dict
succeeds; with a one key object the view renders successfully with
total_responses = 1 instead of faulting. -/
theorem C6_counterexample :
    (index envObj1 s₀ r₀).1 =
      .ok ⟨r₀, "dashboard/index.html",
        [("title", .str "Landing Page\x27 Dashboard"),
         ("total_responses", .int 1)]⟩ := rfl

/-- C6 amended: only decoded JSON values without a Python length — null,
booleans and numbers — make the length step raise a TypeError that
propagates out of the view uncaught, with no render call; JSON objects
and strings have a length and do not fault. -/
theorem C6_amended_scalar_without_length_faults
    (env : Env) (s : Settings) (r : Request) (respBody : String) (v : Json)
    (hf : env.fetch s.API_URL = .ok respBody)
    (hd : env.decode respBody = .ok v)
    (hv : v = .null ∨ (∃ b, v = .bool b) ∨ (∃ n, v = .num n)) :
    (index env s r).1 = .error .typeError := by
  rcases hv with rfl | ⟨b, rfl⟩ | ⟨n, rfl⟩ <;>
    simp [index, indexResult, hf, hd, pyLen]

/-- An environment whose upstream returns the JSON literal null. -/
def envNull : Env := ⟨fun _ => .ok "null", fun _ => .ok .null⟩

/-- C6 witness: a null body makes the TypeError escape the view. -/
theorem C6_witness :
    (index envNull s₀ r₀).1 = .error .typeError :=
  C6_amended_scalar_without_length_faults envNull s₀ r₀ "null" .null
    rfl rfl (Or.inl rfl)

/-- An environment whose upstream returns a three element JSON array. -/
def envArr3 : Env :=
  ⟨fun _ => .ok "[1, 2, 3]",
   fun _ => .ok (.arr [.num 1, .num 2, .num 3])⟩

/-- An environment whose upstream returns a seven element JSON array. -/
def envArr7 : Env :=
  ⟨fun _ => .ok "[1, 2, 3, 4, 5, 6, 7]",
   fun _ => .ok (.arr [.num 1, .num 2, .num 3, .num 4, .num 5,
                       .num 6, .num 7])⟩

/-- C7: the view is stateless: two sequential invocations whose upstream
responses decode to arrays of lengths N1 and N2 bind total_responses to
N1 and N2 respectively — each output is a function of that run's own
environment and request only, with nothing retained between runs. -/
theorem C7_sequential_invocations_independent
    (env₁ env₂ : Env) (s : Settings) (r₁ r₂ : Request)
    (b₁ b₂ : String) (l₁ l₂ : List Json)
    (hf₁ : env₁.fetch s.API_URL = .ok b₁)
    (hd₁ : env₁.decode b₁ = .ok (.arr l₁))
    (hf₂ : env₂.fetch s.API_URL = .ok b₂)
    (hd₂ : env₂.decode b₂ = .ok (.arr l₂)) :
    (index env₁ s r₁).1 =
      .ok ⟨r₁, "dashboard/index.html",
        [("title", .str "Landing Page\x27 Dashboard"),
         ("total_responses", .int l₁.length)]⟩ ∧
    (index env₂ s r₂).1 =
      .ok ⟨r₂, "dashboard/index.html",
        [("title", .str "Landing Page\x27 Dashboard"),
         ("total_responses", .int l₂.length)]⟩ := by
  constructor <;> simp [index, indexResult, hf₁, hd₁, hf₂, hd₂, pyLen]

/-- C7 witness: a length 3 run followed by a length 7 run report 3 and 7. -/
theorem C7_witness :
    (index envArr3 s₀ r₀).1 =
      .ok ⟨r₀, "dashboard/index.html",
        [("title", .str "Landing Page\x27 Dashboard"),
         ("total_responses", .int 3)]⟩ ∧
    (index envArr7 s₀ r₀).1 =
      .ok ⟨r₀, "dashboard/index.html",
        [("title", .str "Landing Page\x27 Dashboard"),
         ("total_responses", .int 7)]⟩ :=
  C7_sequential_invocations_independent envArr3 envArr7 s₀ r₀ r₀
    "[1, 2, 3]" "[1, 2, 3, 4, 5, 6, 7]"
    [.num 1, .num 2, .num 3]
    [.num 1, .num 2, .num 3, .num 4, .num 5, .num 6, .num 7]
    rfl rfl rfl rfl

/-- Helper: the inbound request influences neither the context nor the
template of the result value. -/
theorem indexResult_request_independent
    (env : Env) (s : Settings) (r₁ r₂ : Request) :
    Except.map RenderCall.context (indexResult env s r₁) =
      Except.map RenderCall.context (indexResult env s r₂) ∧
    Except.map RenderCall.template (indexResult env s r₁) =
      Except.map RenderCall.template (indexResult env s r₂) := by
  unfold indexResult
  cases env.fetch s.API_URL with
  | error e => exact ⟨rfl, rfl⟩
  | ok respBody =>
    dsimp only
    cases env.decode respBody with
    | error e => exact ⟨rfl, rfl⟩
    | ok posts =>
      dsimp only
      cases pyLen posts with
      | error e => exact ⟨rfl, rfl⟩
      | ok n => exact ⟨rfl, rfl⟩

/-- C8: noninterference with the inbound request: for any two inbound
requests and the same environment and settings, the effect trace (hence
the outbound URL fetched) and the context mapping and template of the
result are identical; the view consumes no data from the request. -/
theorem C8_request_noninterference
    (env : Env) (s : Settings) (r₁ r₂ : Request) :
    (index env s r₁).2 = (index env s r₂).2 ∧
    Except.map RenderCall.context (index env s r₁).1 =
      Except.map RenderCall.context (index env s r₂).1 ∧
    Except.map RenderCall.template (index env s r₁).1 =
      Except.map RenderCall.template (index env s r₂).1 :=
  ⟨rfl, (indexResult_request_independent env s r₁ r₂).1,
    (indexResult_request_independent env s r₁ r₂).2⟩

/-- C9: every invocation emits exactly one effect: a single outbound GET
whose URL is the API_URL of the settings passed at that invocation (so
the value is read at request time, not cached), with no request body, no
custom headers and no query parameters; no store write effect is ever
emitted. -/
theorem C9_exactly_one_get_no_writes
    (env : Env) (s : Settings) (r : Request) :
    (index env s r).2 =
      [Effect.httpCall ⟨"GET", s.API_URL, none, [], []⟩] := rfl

/-- An environment whose upstream returns a JSON string. -/
def envStr : Env :=
  ⟨fun _ => .ok "\"hello\"", fun _ => .ok (.str "hello")⟩

/-- C10: Python len semantics in the length step: the view also succeeds
when the body decodes to a JSON object (total_responses is the key
count) or a JSON string (total_responses is the character count); only
null, booleans and numbers make the length step raise. -/
theorem C10_python_len_semantics
    (env : Env) (s : Settings) (r : Request) (respBody : String) (v : Json)
    (hf : env.fetch s.API_URL = .ok respBody)
    (hd : env.decode respBody = .ok v) :
    (∀ members, v = .obj members →
      (index env s r).1 =
        .ok ⟨r, "dashboard/index.html",
          [("title", .str "Landing Page\x27 Dashboard"),
           ("total_responses", .int members.length)]⟩) ∧
    (∀ t, v = .str t →
      (index env s r).1 =
        .ok ⟨r, "dashboard/index.html",
          [("title", .str "Landing Page\x27 Dashboard"),
           ("total_responses", .int t.length)]⟩) ∧
    (v = .null → (index env s r).1 = .error .typeError) ∧
    (∀ b, v = .bool b → (index env s r).1 = .error .typeError) ∧
    (∀ n, v = .num n → (index env s r).1 = .error .typeError) := by
  refine ⟨?_, ?_, ?_, ?_, ?_⟩ <;> intros <;> subst_vars <;>
    simp [index, indexResult, hf, hd, pyLen]

/-- C10 witness: a JSON string body of five characters renders with
total_responses = 5. -/
theorem C10_witness :
    (index envStr s₀ r₀).1 =
      .ok ⟨r₀, "dashboard/index.html",
        [("title", .str "Landing Page\x27 Dashboard"),
         ("total_responses", .int 5)]⟩ :=
  (C10_python_len_semantics envStr s₀ r₀ "\"hello\"" (.str "hello")
    rfl rfl).2.1 "hello" rfl

end Dashboard
